import Mathlib

/-!
Shallow embedding of the keystroke-monitoring core of
`src/chrome/content_script.js` (the `passwordcatcher` module).

JavaScript strings of typed characters are modelled as `List Nat` of
character codes (`typedChars_ += String.fromCharCode(evt.charCode)` becomes
list append).  JavaScript `Date` values and event `timeStamp`s are modelled
as integers (milliseconds).  The module-global variables that
`handleKeypress_` reads and writes are collected in the structure `PCState`;
uninitialized globals (`typedTime_`, `lastKeypressTimeStamp_`) are modelled
as `Option Int`, `none` standing for JavaScript `undefined`: any numeric
comparison against `undefined` yields `NaN` and is therefore false, which is
what the `none` branches below return.

Calls out of the module (`chrome.runtime.sendMessage` in `checkChars_` and
`otpAlert_`) are modelled as outputs of the step function: the list of
candidate strings submitted for verification and the number of OTP alerts
raised.
-/

namespace PasswordCatcher

/-- `passwordcatcher.SECONDS_TO_CLEAR_ = 10` (seconds without a keypress
after which the buffer is flushed). -/
def SECONDS_TO_CLEAR_ : Int := 10

/-- `passwordcatcher.ENTER_ASCII_CODE_ = 13`. -/
def ENTER_ASCII_CODE_ : Nat := 13

/-- `passwordcatcher.SECONDS_TO_CLEAR_OTP_ = 60` (OTP must be typed within
this many seconds of the password). -/
def SECONDS_TO_CLEAR_OTP_ : Int := 60

/-- A keypress event as consumed by `handleKeypress_`.  `hasView` models
`evt.view != null`; `now` is the wall-clock value `new Date()` observed
while the handler runs (the handler reads the clock twice, but within one
synchronous handler invocation the two reads are the same instant). -/
structure KeyEvent where
  charCode : Nat
  timeStamp : Int
  hasView : Bool
  now : Int
deriving Repr, DecidableEq

/-- The module-global state of `passwordcatcher` that the keystroke state
machine reads and writes. -/
structure PCState where
  isRunning_ : Bool
  typedChars_ : List Nat
  typedTime_ : Option Int
  lastKeypressTimeStamp_ : Option Int
  passwordLengths_ : List Bool
  otpMode_ : Bool
  otpTime_ : Option Int
  otpCount_ : Nat
  otp_length_ : Nat
deriving Repr, DecidableEq

/-- Result of one `handleKeypress_` invocation: the new global state, the
candidate strings passed to `checkChars_` (in submission order), and the
number of `otpAlert_` calls made. -/
structure StepOut where
  state : PCState
  checks : List (List Nat)
  otpAlerts : Nat
deriving Repr, DecidableEq

/-- The initial module-global state when the content script loads:
`isRunning_ = false`, `otpMode_ = false`, `otpCount_ = 0`,
`otp_length_ = 6`, and the remaining globals undefined. -/
def initState : PCState :=
  { isRunning_ := false
    typedChars_ := []
    typedTime_ := none
    lastKeypressTimeStamp_ := none
    passwordLengths_ := []
    otpMode_ := false
    otpTime_ := none
    otpCount_ := 0
    otp_length_ := 6 }

/-- `passwordcatcher.stop_`: sets `isRunning_ = false`. -/
def stop_ (s : PCState) : PCState := { s with isRunning_ := false }

/-- `passwordcatcher.clearOtpMode_`: sets `otpMode_ = false` (the message to
background is outside the modelled state).  Note that it does not touch
`otpCount_`. -/
def clearOtpMode_ (s : PCState) : PCState := { s with otpMode_ := false }

/-- `evt.timeStamp <= passwordcatcher.lastKeypressTimeStamp_`.  When the
global is still `undefined` the JavaScript comparison is false. -/
def timeStampStale (ts : Int) (last : Option Int) : Bool :=
  match last with
  | some t => decide (ts ≤ t)
  | none => false

/-- `now - t > limitSeconds * 1000` for a possibly-undefined stored time
`t`; against `undefined` the comparison is `NaN > _`, i.e. false. -/
def elapsedOver (now : Int) (t : Option Int) (limitSeconds : Int) : Bool :=
  match t with
  | some t0 => decide (limitSeconds * 1000 < now - t0)
  | none => false

/-- `evt.charCode >= 0x30 && evt.charCode <= 0x39`. -/
def isAsciiDigit (c : Nat) : Bool := decide (0x30 ≤ c ∧ c ≤ 0x39)

/-- JavaScript `str.slice(-n)`: the last `n` characters, except that
`slice(-0)` is `slice(0)` and returns the whole string. -/
def jsSliceLast (s : List Nat) (n : Nat) : List Nat :=
  if n = 0 then s else s.drop (s.length - n)

/-- JavaScript `str.substr(-i)` for `1 ≤ i ≤ str.length`: the last `i`
characters. -/
def suffixChars (chars : List Nat) (i : Nat) : List Nat :=
  chars.drop (chars.length - i)

/-- The candidate-submission loop at the end of `handleKeypress_`:
`for (var i = 1; i < passwordLengths_.length; i++) if (passwordLengths_[i]
&& typedChars_.length >= i) checkChars_(typedChars_.substr(-i))`. -/
def checksFor (pl : List Bool) (chars : List Nat) : List (List Nat) :=
  (List.range' 1 (pl.length - 1)).filterMap fun i =>
    if pl.getD i false = true ∧ i ≤ chars.length then some (suffixChars chars i)
    else none

/-- The `if (passwordcatcher.otpMode_) { ... }` block of `handleKeypress_`
(content_script.js lines 522-538): OTP-window timeout, digit counting,
reset on printable non-digits, and the alert on reaching `otp_length_`.
Returns the updated state and the number of `otpAlert_` calls (0 or 1). -/
def otpPhase (s : PCState) (evt : KeyEvent) : PCState × Nat :=
  if s.otpMode_ then
    let s2 :=
      if elapsedOver evt.now s.otpTime_ SECONDS_TO_CLEAR_OTP_ then
        clearOtpMode_ s
      else if isAsciiDigit evt.charCode then
        { s with otpCount_ := s.otpCount_ + 1 }
      else if 0x20 < evt.charCode ∨ 0 < s.otpCount_ then
        clearOtpMode_ s
      else s
    if s2.otp_length_ ≤ s2.otpCount_ then (clearOtpMode_ s2, 1) else (s2, 0)
  else (s, 0)

/-- The buffer half of `handleKeypress_` (content_script.js lines 540-566):
Enter clears the buffer and returns; otherwise flush on a
`SECONDS_TO_CLEAR_` gap, append the character, trim to
`passwordLengths_.length`, and run the candidate-submission loop.  Returns
the updated state and the candidates passed to `checkChars_`. -/
def bufferPhase (s : PCState) (evt : KeyEvent) : PCState × List (List Nat) :=
  if evt.charCode = ENTER_ASCII_CODE_ then
    ({ s with typedChars_ := [] }, [])
  else
    let s4 :=
      if elapsedOver evt.now s.typedTime_ SECONDS_TO_CLEAR_ then
        { s with typedChars_ := [] }
      else s
    let chars1 := s4.typedChars_ ++ [evt.charCode]
    let chars2 :=
      if s4.passwordLengths_.length < chars1.length then
        jsSliceLast chars1 s4.passwordLengths_.length
      else chars1
    let s5 := { s4 with typedChars_ := chars2, typedTime_ := some evt.now }
    (s5, checksFor s5.passwordLengths_ chars2)

/-- `passwordcatcher.handleKeypress_` (content_script.js lines 508-567). -/
def handleKeypress_ (s : PCState) (evt : KeyEvent) : StepOut :=
  if s.isRunning_ = false then ⟨s, [], 0⟩
  else if evt.hasView = false then ⟨s, [], 0⟩
  else if timeStampStale evt.timeStamp s.lastKeypressTimeStamp_ then ⟨s, [], 0⟩
  else
    let s1 := { s with lastKeypressTimeStamp_ := some evt.timeStamp }
    let p := otpPhase s1 evt
    let q := bufferPhase p.1 evt
    ⟨q.1, q.2, p.2⟩

/-- The message from background that (re)configures the monitor:
`state.passwordLengths` and the optional OTP-mode carry-over. -/
structure StartMsg where
  passwordLengths : List Bool
  otpMode : Bool
  otpTime : Int
deriving Repr, DecidableEq

/-- `passwordcatcher.start_` (content_script.js lines 457-480).  `safeUrl`
stands for the URL test `sso_url_ is a prefix of url_ or GAIA_URL_ is a
prefix of url_`, which depends only on page configuration, not on the
keystroke state. -/
def start_ (s : PCState) (msg : StartMsg) (safeUrl : Bool) : PCState :=
  let s1 := { s with passwordLengths_ := msg.passwordLengths }
  if msg.passwordLengths.length = 0 then stop_ s1
  else
    let s2 :=
      if msg.otpMode then { s1 with otpMode_ := true, otpTime_ := some msg.otpTime }
      else s1
    if safeUrl then stop_ s2
    else { s2 with typedChars_ := [], isRunning_ := true }

/-- The `checkChars_` response callback on a verifier match
(content_script.js lines 650-654): re-arms the OTP tracker with
`otpCount_ = 0`, `otpMode_ = true`, `otpTime_ = now`. -/
def onPasswordMatch (s : PCState) (now : Int) : PCState :=
  { s with otpCount_ := 0, otpMode_ := true, otpTime_ := some now }

/-- Process a list of keypress events in order, collecting all candidate
checks and OTP alerts. -/
def runKeys (s : PCState) : List KeyEvent → StepOut
  | [] => ⟨s, [], 0⟩
  | e :: es =>
    let o := handleKeypress_ s e
    let r := runKeys o.state es
    ⟨r.state, o.checks ++ r.checks, o.otpAlerts + r.otpAlerts⟩

/-- The state after each event of a run (one entry per event). -/
def statesAfter (s : PCState) : List KeyEvent → List PCState
  | [] => []
  | e :: es =>
    let s2 := (handleKeypress_ s e).state
    s2 :: statesAfter s2 es

/-- The largest watched password length of a `passwordLengths_` array:
the largest index holding `true` (0 if there is none). -/
def maxWatched (pl : List Bool) : Nat :=
  ((List.range pl.length).filter fun i => pl.getD i false).foldr max 0

/-- The domain-suffix whitelist test of `passwordcatcher.whitelistUrl_`
(content_script.js lines 727-738), abstracted over the page domain and the
configured `whitelist_top_domains_`: true iff some configured entry is a
suffix of the domain (`goog.string.endsWith`). -/
def whitelistUrl_ (domain : String) (whitelist : List String) : Bool :=
  whitelist.any fun w => w.data.isSuffixOf domain.data

/-! ### Concrete scenario inputs -/

/-- A running monitor watching only passwords of length 1
(`passwordLengths_ = [false, true]`). -/
def c1CounterState : PCState :=
  { initState with
    isRunning_ := true
    passwordLengths_ := [false, true] }

/-- Two valid keystrokes: character codes 97 and 98, increasing timestamps,
100 ms apart. -/
def c1CounterEvents : List KeyEvent :=
  [⟨97, 1, true, 0⟩, ⟨98, 2, true, 100⟩]

/-- A running monitor watching lengths 4 and 6
(`passwordLengths_ = [F,F,F,F,T,F,T]`) whose buffer holds `"xx123"`. -/
def c2State : PCState :=
  { initState with
    isRunning_ := true
    passwordLengths_ := [false, false, false, false, true, false, true]
    typedChars_ := [120, 120, 49, 50, 51]
    typedTime_ := some 0 }

/-- The keystroke `'4'` (code 52) completing the buffer `"xx1234"`. -/
def c2Event : KeyEvent := ⟨52, 1, true, 100⟩

/-- A running monitor watching only length 5. -/
def c3State : PCState :=
  { initState with
    isRunning_ := true
    passwordLengths_ := [false, false, false, false, false, true] }

/-- Typing `"abc"` in a burst, then `"de"` after an 11.1-second pause. -/
def c3Events : List KeyEvent :=
  [⟨97, 1, true, 0⟩, ⟨98, 2, true, 100⟩, ⟨99, 3, true, 200⟩,
   ⟨100, 4, true, 11300⟩, ⟨101, 5, true, 11400⟩]

/-- A running monitor with a previously accepted timestamp of 50. -/
def c4State : PCState :=
  { initState with
    isRunning_ := true
    passwordLengths_ := [false, true]
    lastKeypressTimeStamp_ := some 50 }

/-- A synthetic keystroke: `evt.view == null`. -/
def c4Event : KeyEvent := ⟨97, 60, false, 0⟩

/-- A running monitor in OTP mode armed at time 0 with 3 digits counted. -/
def c5State : PCState :=
  { initState with
    isRunning_ := true
    passwordLengths_ := [false]
    otpMode_ := true
    otpTime_ := some 0
    otpCount_ := 3 }

/-- A keystroke arriving 61 s after the OTP tracker was armed. -/
def c5Event : KeyEvent := ⟨97, 1, true, 61000⟩

/-- A running monitor in OTP mode armed at time 0 with no digits yet. -/
def c6State : PCState :=
  { initState with
    isRunning_ := true
    passwordLengths_ := [false]
    otpMode_ := true
    otpTime_ := some 0 }

/-- The printable non-digit `'a'` (code 97), inside the OTP window. -/
def c6Event : KeyEvent := ⟨97, 1, true, 1000⟩

/-- A running monitor whose OTP tracker has just been armed at time 0 by a
verifier match. -/
def c7Armed : PCState :=
  onPasswordMatch { initState with isRunning_ := true, passwordLengths_ := [false] } 0

/-- Five ASCII digits typed within the OTP window. -/
def c7FiveDigits : List KeyEvent :=
  [⟨49, 1, true, 100⟩, ⟨50, 2, true, 200⟩, ⟨51, 3, true, 300⟩,
   ⟨52, 4, true, 400⟩, ⟨53, 5, true, 500⟩]

/-- The state after the five digits. -/
def c7AfterFive : PCState := (runKeys c7Armed c7FiveDigits).state

/-- The sixth digit. -/
def c7SixthDigit : KeyEvent := ⟨54, 6, true, 600⟩

/-- The state after the sixth digit (alert raised, tracker disarmed). -/
def c7AfterSix : PCState := (handleKeypress_ c7AfterFive c7SixthDigit).state

/-- A seventh digit, typed while the tracker is disarmed. -/
def c7SeventhDigit : KeyEvent := ⟨55, 7, true, 700⟩

/-- The state after the seventh digit. -/
def c7AfterSeven : PCState := (handleKeypress_ c7AfterSix c7SeventhDigit).state

/-- A digit typed after the tracker has been re-armed. -/
def c7EighthDigit : KeyEvent := ⟨56, 8, true, 900⟩

/-- An arbitrary running monitor state, used to witness the stopped-monitor
claim. -/
def c8State : PCState :=
  { initState with
    isRunning_ := true
    passwordLengths_ := [false, true]
    typedChars_ := [97]
    typedTime_ := some 0 }

/-- Keystrokes fired after `stop_`. -/
def c8Events : List KeyEvent :=
  [⟨97, 1, true, 0⟩, ⟨13, 2, true, 100⟩, ⟨49, 3, true, 200⟩]

/-- A start message watching only length 1. -/
def c10Msg : StartMsg := ⟨[false, true], false, 0⟩

/-- A first keystroke whose timestamp is even negative. -/
def c10Event : KeyEvent := ⟨97, -100, true, 0⟩

/-! ### Helper lemmas -/

/-- The OTP block only writes `otpMode_` and `otpCount_`: every other
global is untouched. -/
theorem otpPhase_preserves (s : PCState) (e : KeyEvent) :
    (otpPhase s e).1.typedChars_ = s.typedChars_ ∧
    (otpPhase s e).1.typedTime_ = s.typedTime_ ∧
    (otpPhase s e).1.passwordLengths_ = s.passwordLengths_ ∧
    (otpPhase s e).1.lastKeypressTimeStamp_ = s.lastKeypressTimeStamp_ ∧
    (otpPhase s e).1.isRunning_ = s.isRunning_ ∧
    (otpPhase s e).1.otp_length_ = s.otp_length_ := by
  unfold otpPhase clearOtpMode_
  dsimp only
  split_ifs <;> simp

/-- The buffer block only writes `typedChars_` and `typedTime_`: every
other global is untouched. -/
theorem bufferPhase_preserves (s : PCState) (e : KeyEvent) :
    (bufferPhase s e).1.otpMode_ = s.otpMode_ ∧
    (bufferPhase s e).1.otpCount_ = s.otpCount_ ∧
    (bufferPhase s e).1.otpTime_ = s.otpTime_ ∧
    (bufferPhase s e).1.passwordLengths_ = s.passwordLengths_ ∧
    (bufferPhase s e).1.lastKeypressTimeStamp_ = s.lastKeypressTimeStamp_ ∧
    (bufferPhase s e).1.isRunning_ = s.isRunning_ ∧
    (bufferPhase s e).1.otp_length_ = s.otp_length_ := by
  unfold bufferPhase jsSliceLast
  dsimp only
  split_ifs <;> simp

/-- On an event that passes the three validity guards, `handleKeypress_`
records the timestamp and runs the OTP block and then the buffer block. -/
theorem handleKeypress_accepted (s : PCState) (evt : KeyEvent)
    (hrun : s.isRunning_ = true) (hview : evt.hasView = true)
    (hts : timeStampStale evt.timeStamp s.lastKeypressTimeStamp_ = false) :
    handleKeypress_ s evt =
      ⟨(bufferPhase (otpPhase { s with lastKeypressTimeStamp_ := some evt.timeStamp } evt).1 evt).1,
       (bufferPhase (otpPhase { s with lastKeypressTimeStamp_ := some evt.timeStamp } evt).1 evt).2,
       (otpPhase { s with lastKeypressTimeStamp_ := some evt.timeStamp } evt).2⟩ := by
  unfold handleKeypress_
  simp [hrun, hview, hts]

/-- A `true` entry of the watched-length array lies below its length. -/
theorem getD_true_lt {pl : List Bool} {i : Nat}
    (h : pl.getD i false = true) : i < pl.length := by
  by_contra hc
  push_neg at hc
  rw [List.getD_eq_default _ _ hc] at h
  exact Bool.false_ne_true h

/-- An upper bound on every element bounds `foldr max 0`. -/
theorem foldr_max_le {l : List Nat} {b : Nat} (hb : ∀ x ∈ l, x ≤ b) :
    l.foldr max 0 ≤ b := by
  induction l with
  | nil => exact Nat.zero_le b
  | cons a t ih =>
    exact Nat.max_le.mpr ⟨hb a (List.mem_cons_self a t),
      ih fun x hx => hb x (List.mem_cons_of_mem a hx)⟩

/-- `foldr max 0` dominates every element. -/
theorem le_foldr_max {l : List Nat} {x : Nat} (hx : x ∈ l) :
    x ≤ l.foldr max 0 := by
  induction l with
  | nil => cases hx
  | cons a t ih =>
    rcases List.mem_cons.mp hx with h | h
    · subst h
      simp only [List.foldr_cons]
      exact Nat.le_max_left x _
    · simp only [List.foldr_cons]
      exact Nat.le_trans (ih h) (Nat.le_max_right a _)

/-- When the top entry of the watched-length array is `true` — as in the
array background.js builds, whose last index is the longest watched
password — the largest watched length is `length - 1`. -/
theorem maxWatched_top {pl : List Bool} (h1 : 1 ≤ pl.length)
    (h2 : pl.getD (pl.length - 1) false = true) :
    maxWatched pl = pl.length - 1 := by
  unfold maxWatched
  apply Nat.le_antisymm
  · apply foldr_max_le
    intro x hx
    have hr := (List.mem_filter.mp hx).1
    have := List.mem_range.mp hr
    omega
  · apply le_foldr_max
    rw [List.mem_filter]
    exact ⟨List.mem_range.mpr (by omega), by simpa using h2⟩

/-- Membership in the candidate-submission loop's output: exactly the
suffixes of each watched length that the buffer can supply. -/
theorem mem_checksFor {pl : List Bool} {chars : List Nat} {c : List Nat} :
    c ∈ checksFor pl chars ↔
      ∃ i, 1 ≤ i ∧ pl.getD i false = true ∧ i ≤ chars.length ∧
        c = suffixChars chars i := by
  unfold checksFor
  rw [List.mem_filterMap]
  constructor
  · rintro ⟨i, hi, hf⟩
    rw [List.mem_range'_1] at hi
    split at hf
    · rename_i hcond
      exact ⟨i, hi.1, hcond.1, hcond.2, (Option.some.injEq _ _ ▸ hf).symm⟩
    · cases hf
  · rintro ⟨i, h1, h2, h3, rfl⟩
    refine ⟨i, ?_, ?_⟩
    · rw [List.mem_range'_1]
      have hlt : i < pl.length := getD_true_lt h2
      omega
    · rw [if_pos ⟨h2, h3⟩]

/-- When the watched-length array is non-empty, one buffer step leaves the
buffer no longer than the array: either the appended result already fits,
or it is trimmed down to exactly the array length. -/
theorem bufferPhase_length_le (s : PCState) (e : KeyEvent)
    (h : 1 ≤ s.passwordLengths_.length) :
    (bufferPhase s e).1.typedChars_.length ≤ s.passwordLengths_.length := by
  unfold bufferPhase jsSliceLast
  dsimp only
  split_ifs <;> simp_all <;> omega

/-- On a non-Enter keystroke, the candidates submitted are the
candidate-loop output over the buffer as it stands after the append. -/
theorem bufferPhase_checks_eq (s : PCState) (e : KeyEvent)
    (hne : e.charCode ≠ ENTER_ASCII_CODE_) :
    (bufferPhase s e).2 =
      checksFor s.passwordLengths_ (bufferPhase s e).1.typedChars_ := by
  unfold bufferPhase
  rw [if_neg hne]
  dsimp only
  split_ifs <;> rfl

/-- On a non-Enter keystroke arriving more than `SECONDS_TO_CLEAR_` after
the previous one, the buffer is emptied before appending, so afterwards it
holds exactly the new character. -/
theorem bufferPhase_gap_reset (s : PCState) (e : KeyEvent)
    (hne : e.charCode ≠ ENTER_ASCII_CODE_)
    (hgap : elapsedOver e.now s.typedTime_ SECONDS_TO_CLEAR_ = true) :
    (bufferPhase s e).1.typedChars_ = [e.charCode] := by
  unfold bufferPhase
  rw [if_neg hne]
  dsimp only
  rw [if_pos hgap]
  by_cases h0 : s.passwordLengths_ = []
  · simp [h0, jsSliceLast]
  · simp [h0]

/-- Timed-out OTP window: the OTP block disarms the tracker but leaves the
digit count untouched. -/
theorem otpPhase_elapsed (s : PCState) (e : KeyEvent)
    (hotp : s.otpMode_ = true)
    (helapsed : elapsedOver e.now s.otpTime_ SECONDS_TO_CLEAR_OTP_ = true) :
    (otpPhase s e).1.otpMode_ = false ∧
    (otpPhase s e).1.otpCount_ = s.otpCount_ := by
  unfold otpPhase clearOtpMode_
  dsimp only
  split_ifs <;> simp_all

/-- Within the window with `otpCount_ = 0`, a printable non-digit disarms
the tracker. -/
theorem otpPhase_printable_disarms (s : PCState) (e : KeyEvent)
    (hotp : s.otpMode_ = true)
    (hwin : elapsedOver e.now s.otpTime_ SECONDS_TO_CLEAR_OTP_ = false)
    (hcount : s.otpCount_ = 0)
    (hch : 0x20 < e.charCode) (hnd : isAsciiDigit e.charCode = false) :
    (otpPhase s e).1.otpMode_ = false := by
  unfold otpPhase clearOtpMode_
  dsimp only
  split_ifs <;> simp_all

/-- Within the window with `otpCount_ = 0`, a non-printable keystroke
leaves the tracker armed. -/
theorem otpPhase_nonprintable_keeps (s : PCState) (e : KeyEvent)
    (hotp : s.otpMode_ = true)
    (hwin : elapsedOver e.now s.otpTime_ SECONDS_TO_CLEAR_OTP_ = false)
    (hcount : s.otpCount_ = 0) (hreq : 0 < s.otp_length_)
    (hch : e.charCode ≤ 0x20) :
    (otpPhase s e).1.otpMode_ = true := by
  have hnd : isAsciiDigit e.charCode = false := by
    unfold isAsciiDigit
    simp
    omega
  unfold otpPhase clearOtpMode_
  dsimp only
  split_ifs <;> simp_all <;> omega

/-- One full `handleKeypress_` step keeps the buffer within the
watched-length array and leaves the array itself unchanged. -/
theorem handleKeypress_length_invariant (s : PCState) (e : KeyEvent)
    (hlen : 1 ≤ s.passwordLengths_.length)
    (hbuf : s.typedChars_.length ≤ s.passwordLengths_.length) :
    (handleKeypress_ s e).state.typedChars_.length ≤ s.passwordLengths_.length ∧
    (handleKeypress_ s e).state.passwordLengths_ = s.passwordLengths_ := by
  unfold handleKeypress_
  dsimp only
  split_ifs with h1 h2 h3
  · exact ⟨hbuf, rfl⟩
  · exact ⟨hbuf, rfl⟩
  · exact ⟨hbuf, rfl⟩
  · obtain ⟨-, -, hopl, -, -, -⟩ :=
      otpPhase_preserves { s with lastKeypressTimeStamp_ := some e.timeStamp } e
    obtain ⟨-, -, -, hbpl, -, -, -⟩ :=
      bufferPhase_preserves
        (otpPhase { s with lastKeypressTimeStamp_ := some e.timeStamp } e).1 e
    constructor
    · have hb := bufferPhase_length_le
        (otpPhase { s with lastKeypressTimeStamp_ := some e.timeStamp } e).1 e
        (by rw [hopl]; exact hlen)
      rwa [hopl] at hb
    · rw [hbpl, hopl]

/-- Along any run, every post-event state keeps the buffer within the
(unchanged) watched-length array. -/
theorem statesAfter_length_invariant (s : PCState) (es : List KeyEvent)
    (hlen : 1 ≤ s.passwordLengths_.length)
    (hbuf : s.typedChars_.length ≤ s.passwordLengths_.length) :
    ∀ s2 ∈ statesAfter s es,
      s2.typedChars_.length ≤ s2.passwordLengths_.length ∧
      s2.passwordLengths_ = s.passwordLengths_ := by
  induction es generalizing s with
  | nil =>
    intro s2 h
    cases h
  | cons e es ih =>
    intro s2 h
    rw [statesAfter] at h
    obtain ⟨hb, hp⟩ := handleKeypress_length_invariant s e hlen hbuf
    rcases List.mem_cons.mp h with heq | htail
    · subst heq
      exact ⟨hp ▸ hb, hp⟩
    · obtain ⟨h1, h2⟩ := ih (handleKeypress_ s e).state
        (by rw [hp]; exact hlen) (by rw [hp]; exact hb) s2 htail
      exact ⟨h1, h2.trans hp⟩

/-! ### Claim theorems -/

/-- Claim C1, counterexample: with watched-length set `{1}` (array
`[false, true]`, so `max(L) = 1`) and two accepted keystrokes, the rolling
buffer ends up holding 2 characters, exceeding `max(L)`: the code trims to
`passwordLengths_.length = max(L) + 1`, not to `max(L)`. -/
theorem c1_counterexample :
    maxWatched c1CounterState.passwordLengths_ = 1 ∧
    (∀ s2 ∈ statesAfter c1CounterState c1CounterEvents,
      s2.passwordLengths_ = c1CounterState.passwordLengths_) ∧
    ∃ s2 ∈ statesAfter c1CounterState c1CounterEvents,
      maxWatched c1CounterState.passwordLengths_ < s2.typedChars_.length := by
  decide

/-- Claim C1 (amended): for a watched-length array whose last entry is true
(the shape background.js builds, where the array length is one more than
the largest watched length), after each event processed by
`handleKeypress_` the rolling buffer holds at most `max(L) + 1` characters
— one more than the largest watched password length. -/
theorem c1_buffer_bounded (s : PCState) (es : List KeyEvent)
    (hlen : 1 ≤ s.passwordLengths_.length)
    (hbuf : s.typedChars_.length ≤ s.passwordLengths_.length)
    (htop : s.passwordLengths_.getD (s.passwordLengths_.length - 1) false = true) :
    ∀ s2 ∈ statesAfter s es,
      s2.typedChars_.length ≤ maxWatched s2.passwordLengths_ + 1 := by
  intro s2 h
  obtain ⟨hb, hpl⟩ := statesAfter_length_invariant s es hlen hbuf s2 h
  rw [hpl] at hb
  rw [hpl, maxWatched_top hlen htop]
  omega

/-- Claim C1 amended, witness: on the concrete length-1 configuration, the
state after the first keystroke obeys the `max(L) + 1` bound. -/
theorem c1_buffer_bounded_witness :
    (handleKeypress_ c1CounterState (⟨97, 1, true, 0⟩ : KeyEvent)).state.typedChars_.length ≤
      maxWatched (handleKeypress_ c1CounterState
        (⟨97, 1, true, 0⟩ : KeyEvent)).state.passwordLengths_ + 1 :=
  c1_buffer_bounded c1CounterState c1CounterEvents (by decide) (by decide)
    (by decide)
    (handleKeypress_ c1CounterState (⟨97, 1, true, 0⟩ : KeyEvent)).state
    (by decide)

/-- Claim C2: on an accepted non-Enter keystroke, the candidates submitted
to `checkChars_` are exactly the suffixes of the post-append buffer whose
length `i` is watched (a positive index with `passwordLengths_[i]` true)
and available (`i ≤ length(buffer)`); in particular with watched lengths
`{4, 6}` and buffer `"xx1234"`, exactly the two candidates `"1234"` and
`"xx1234"` are submitted — the maximum watched length itself included. -/
theorem c2_candidate_checks (s : PCState) (evt : KeyEvent)
    (hrun : s.isRunning_ = true) (hview : evt.hasView = true)
    (hts : timeStampStale evt.timeStamp s.lastKeypressTimeStamp_ = false)
    (hne : evt.charCode ≠ ENTER_ASCII_CODE_) :
    (∀ c, c ∈ (handleKeypress_ s evt).checks ↔
      ∃ i, 1 ≤ i ∧ s.passwordLengths_.getD i false = true ∧
        i ≤ (handleKeypress_ s evt).state.typedChars_.length ∧
        c = suffixChars (handleKeypress_ s evt).state.typedChars_ i) ∧
    (handleKeypress_ c2State c2Event).checks =
      [[49, 50, 51, 52], [120, 120, 49, 50, 51, 52]] := by
  constructor
  · intro c
    rw [handleKeypress_accepted s evt hrun hview hts]
    dsimp only
    obtain ⟨-, -, hopl, -, -, -⟩ :=
      otpPhase_preserves { s with lastKeypressTimeStamp_ := some evt.timeStamp } evt
    rw [bufferPhase_checks_eq _ evt hne, hopl]
    exact mem_checksFor
  · decide

/-- Claim C2, witness: on the concrete `{4, 6}` configuration exactly the
two candidates are issued. -/
theorem c2_candidate_checks_witness :
    (handleKeypress_ c2State c2Event).checks =
      [[49, 50, 51, 52], [120, 120, 49, 50, 51, 52]] :=
  (c2_candidate_checks c2State c2Event (by decide) (by decide) (by decide)
    (by decide)).2

/-- Claim C3: if more than `SECONDS_TO_CLEAR_` (10 s) elapsed since the
previous appended character, an accepted non-Enter keystroke finds the
buffer reset first, so afterwards the buffer is exactly the new character;
and concretely, typing `"abc"`, pausing 11.1 s, then typing `"de"` with
watched length 5 never submits the candidate `"abcde"`. -/
theorem c3_gap_resets (s : PCState) (evt : KeyEvent)
    (hrun : s.isRunning_ = true) (hview : evt.hasView = true)
    (hts : timeStampStale evt.timeStamp s.lastKeypressTimeStamp_ = false)
    (hne : evt.charCode ≠ ENTER_ASCII_CODE_)
    (hgap : elapsedOver evt.now s.typedTime_ SECONDS_TO_CLEAR_ = true) :
    (handleKeypress_ s evt).state.typedChars_ = [evt.charCode] ∧
    [97, 98, 99, 100, 101] ∉ (runKeys c3State c3Events).checks := by
  constructor
  · rw [handleKeypress_accepted s evt hrun hview hts]
    dsimp only
    obtain ⟨-, hopt, -, -, -, -⟩ :=
      otpPhase_preserves { s with lastKeypressTimeStamp_ := some evt.timeStamp } evt
    apply bufferPhase_gap_reset _ evt hne
    rw [hopt]
    exact hgap
  · decide

/-- Claim C3, witness: instantiated on the `"abc"`-pause-`"de"` run (the
fourth keystroke, code 100, arrives 11.1 s after the third). -/
theorem c3_gap_resets_witness :
    (handleKeypress_ (runKeys c3State (c3Events.take 3)).state
      (⟨100, 4, true, 11300⟩ : KeyEvent)).state.typedChars_ = [100] ∧
    [97, 98, 99, 100, 101] ∉ (runKeys c3State c3Events).checks :=
  c3_gap_resets (runKeys c3State (c3Events.take 3)).state ⟨100, 4, true, 11300⟩
    (by decide) (by decide) (by decide) (by decide) (by decide)

/-- Claim C4: an event with `view == null`, or with a timestamp not
strictly greater than the last accepted one, is a complete no-op: the
returned state is the input state (buffer, timestamp, OTP tracker all
unchanged) and no candidate checks and no alerts are produced. -/
theorem c4_invalid_dropped (s : PCState) (evt : KeyEvent)
    (h : evt.hasView = false ∨
      ∃ t, s.lastKeypressTimeStamp_ = some t ∧ evt.timeStamp ≤ t) :
    handleKeypress_ s evt = ⟨s, [], 0⟩ := by
  unfold handleKeypress_
  split_ifs with h1 h2 h3
  · rfl
  · rfl
  · rfl
  · exfalso
    rcases h with hv | ⟨t, hteq, htle⟩
    · exact h2 hv
    · exact h3 (by simp [timeStampStale, hteq, htle])

/-- Claim C4, witness: a synthetic (`view == null`) keystroke on a running
monitor is dropped whole. -/
theorem c4_invalid_dropped_witness :
    handleKeypress_ c4State c4Event = ⟨c4State, [], 0⟩ :=
  c4_invalid_dropped c4State c4Event (Or.inl (by decide))

/-- Claim C5, counterexample: a keystroke arriving 61 s after the OTP
tracker was armed with `otpCount_ = 3` leaves `otpMode_ = false` but
`otpCount_ = 3 ≠ 0`: `clearOtpMode_` does not reset the digit count. -/
theorem c5_counterexample :
    c5State.otpMode_ = true ∧
    elapsedOver c5Event.now c5State.otpTime_ SECONDS_TO_CLEAR_OTP_ = true ∧
    (handleKeypress_ c5State c5Event).state.otpMode_ = false ∧
    (handleKeypress_ c5State c5Event).state.otpCount_ ≠ 0 := by
  decide

/-- Claim C5 (amended): when a keystroke is processed in OTP mode after
the `SECONDS_TO_CLEAR_OTP_` (60 s) window has elapsed, the tracker is
disarmed (`otpMode_ = false`) but `otpCount_` is left unchanged — it is
reset to 0 only when a verified password match re-arms the tracker. -/
theorem c5_window_disarms (s : PCState) (evt : KeyEvent)
    (hrun : s.isRunning_ = true) (hview : evt.hasView = true)
    (hts : timeStampStale evt.timeStamp s.lastKeypressTimeStamp_ = false)
    (hotp : s.otpMode_ = true)
    (helapsed : elapsedOver evt.now s.otpTime_ SECONDS_TO_CLEAR_OTP_ = true) :
    (handleKeypress_ s evt).state.otpMode_ = false ∧
    (handleKeypress_ s evt).state.otpCount_ = s.otpCount_ := by
  rw [handleKeypress_accepted s evt hrun hview hts]
  dsimp only
  obtain ⟨hm, hc⟩ := otpPhase_elapsed
    { s with lastKeypressTimeStamp_ := some evt.timeStamp } evt hotp helapsed
  obtain ⟨hbm, hbc, -, -, -, -, -⟩ := bufferPhase_preserves
    (otpPhase { s with lastKeypressTimeStamp_ := some evt.timeStamp } evt).1 evt
  exact ⟨by rw [hbm, hm], by rw [hbc, hc]⟩

/-- Claim C5 amended, witness: the 61-second-late keystroke disarms the
tracker and leaves the stale count of 3 in place. -/
theorem c5_window_disarms_witness :
    (handleKeypress_ c5State c5Event).state.otpMode_ = false ∧
    (handleKeypress_ c5State c5Event).state.otpCount_ = c5State.otpCount_ :=
  c5_window_disarms c5State c5Event (by decide) (by decide) (by decide)
    (by decide) (by decide)

/-- Claim C6: with the OTP tracker armed, inside its window, and
`otpCount_ = 0`, an accepted printable non-digit keystroke
(`charCode > 0x20`, not an ASCII digit) disarms the tracker, while a
non-printable keystroke (`charCode ≤ 0x20`) leaves it armed. -/
theorem c6_zero_count_reset_rules (s : PCState) (evt : KeyEvent)
    (hrun : s.isRunning_ = true) (hview : evt.hasView = true)
    (hts : timeStampStale evt.timeStamp s.lastKeypressTimeStamp_ = false)
    (hotp : s.otpMode_ = true)
    (hwin : elapsedOver evt.now s.otpTime_ SECONDS_TO_CLEAR_OTP_ = false)
    (hcount : s.otpCount_ = 0) (hreq : 0 < s.otp_length_) :
    (0x20 < evt.charCode → isAsciiDigit evt.charCode = false →
      (handleKeypress_ s evt).state.otpMode_ = false) ∧
    (evt.charCode ≤ 0x20 →
      (handleKeypress_ s evt).state.otpMode_ = true) := by
  rw [handleKeypress_accepted s evt hrun hview hts]
  dsimp only
  obtain ⟨hbm, -, -, -, -, -, -⟩ := bufferPhase_preserves
    (otpPhase { s with lastKeypressTimeStamp_ := some evt.timeStamp } evt).1 evt
  constructor
  · intro hch hnd
    rw [hbm]
    exact otpPhase_printable_disarms _ evt hotp hwin hcount hch hnd
  · intro hch
    rw [hbm]
    exact otpPhase_nonprintable_keeps _ evt hotp hwin hcount hreq hch

/-- Claim C6, witness: the printable non-digit `'a'` typed on a freshly
armed tracker disarms it. -/
theorem c6_zero_count_reset_rules_witness :
    (handleKeypress_ c6State c6Event).state.otpMode_ = false :=
  (c6_zero_count_reset_rules c6State c6Event (by decide) (by decide) (by decide)
    (by decide) (by decide) (by decide) (by decide)).1 (by decide) (by decide)

/-- Claim C7: with `otp_length_ = 6`, arming the tracker and typing 5
digits inside the window leaves `otpCount_ = 5` and `otpMode_ = true` with
no alert; the 6th digit raises exactly one OTP alert and disarms the
tracker; a 7th digit is not counted while disarmed and raises nothing; and
after the tracker is re-armed by a verified password match a digit is
counted again from zero. -/
theorem c7_otp_alert_sequence :
    c7Armed.otp_length_ = 6 ∧
    (runKeys c7Armed c7FiveDigits).state.otpCount_ = 5 ∧
    (runKeys c7Armed c7FiveDigits).state.otpMode_ = true ∧
    (runKeys c7Armed c7FiveDigits).otpAlerts = 0 ∧
    (handleKeypress_ c7AfterFive c7SixthDigit).otpAlerts = 1 ∧
    c7AfterSix.otpMode_ = false ∧
    (handleKeypress_ c7AfterSix c7SeventhDigit).state.otpCount_ =
      c7AfterSix.otpCount_ ∧
    (handleKeypress_ c7AfterSix c7SeventhDigit).otpAlerts = 0 ∧
    (handleKeypress_ (onPasswordMatch c7AfterSeven 800) c7EighthDigit).state.otpCount_ = 1 ∧
    (handleKeypress_ (onPasswordMatch c7AfterSeven 800) c7EighthDigit).state.otpMode_ = true := by
  decide

/-- Claim C8: once `stop_` has cleared `isRunning_`, any sequence of
keystroke events is a complete no-op: the state is untouched and no
candidate checks and no alerts are produced. -/
theorem c8_stopped_noop (s : PCState) (es : List KeyEvent) :
    runKeys (stop_ s) es = ⟨stop_ s, [], 0⟩ := by
  induction es with
  | nil => rfl
  | cons e es ih =>
    have hstep : handleKeypress_ (stop_ s) e = ⟨stop_ s, [], 0⟩ := by
      simp [handleKeypress_, stop_]
    simp [runKeys, hstep, ih]

/-- Claim C9: the domain whitelist is a suffix match, not an equality:
`"login.accounts.google.com"` matches the entry `"accounts.google.com"`,
while `"accounts.google.com.evil.com"` does not. -/
theorem c9_whitelist_suffix_match :
    whitelistUrl_ "login.accounts.google.com" ["accounts.google.com"] = true ∧
    whitelistUrl_ "accounts.google.com.evil.com" ["accounts.google.com"] = false := by
  decide

/-- `start_` from the freshly loaded state (non-empty lengths, non-safe
URL) leaves the monitor running with `lastKeypressTimeStamp_` still
undefined. -/
theorem start_initState_fields (msg : StartMsg)
    (hlen : msg.passwordLengths.length ≠ 0) :
    (start_ initState msg false).isRunning_ = true ∧
    (start_ initState msg false).lastKeypressTimeStamp_ = none := by
  unfold start_ stop_ initState
  dsimp only
  rw [if_neg hlen]
  split_ifs <;> simp_all

/-- Claim C10: the first keystroke processed after the monitor starts is
never rejected by the timestamp-ordering filter, whatever its timestamp:
`lastKeypressTimeStamp_` is still undefined, the JavaScript comparison
against `undefined` is false, and the event is accepted (its timestamp is
recorded). -/
theorem c10_first_event_accepted (msg : StartMsg) (evt : KeyEvent)
    (hlen : msg.passwordLengths.length ≠ 0) (hview : evt.hasView = true) :
    (handleKeypress_ (start_ initState msg false) evt).state.lastKeypressTimeStamp_ =
      some evt.timeStamp := by
  obtain ⟨hrun, hlast⟩ := start_initState_fields msg hlen
  have hts : timeStampStale evt.timeStamp
      (start_ initState msg false).lastKeypressTimeStamp_ = false := by
    rw [hlast]
    rfl
  rw [handleKeypress_accepted _ evt hrun hview hts]
  dsimp only
  rw [(bufferPhase_preserves _ evt).2.2.2.2.1, (otpPhase_preserves _ evt).2.2.2.1]

/-- Claim C10, witness: with watched length 1 the very first keystroke is
accepted even with a negative timestamp. -/
theorem c10_first_event_accepted_witness :
    (handleKeypress_ (start_ initState c10Msg false) c10Event).state.lastKeypressTimeStamp_ =
      some c10Event.timeStamp :=
  c10_first_event_accepted c10Msg c10Event (by decide) (by decide)

end PasswordCatcher
